import Mathlib

set_option maxRecDepth 4000
set_option allowUnsafeReducibility true
attribute [local semireducible] Rat.add Rat.sub Rat.mul Rat.inv Rat.ofScientific

/-
Verification development for the st4rs star-field application.

Shallow embedding of:
 - the catalog projector and spectral-class inference
   (src/unnamed/part_000 and src/components/StarField.tsx, inferSpectralClass),
 - the spatial remapper (src/unnamed/part_000, remapPosition),
 - the galaxy search and selection panel
   (src/components/GalaxyCanvas.tsx, performSearch / Star.handleClick),
 - the flicker selection-mix update (src/unnamed/part_000, Star useFrame body),
 - the constellation placement system
   (src/components/GalaxyCanvas.tsx, ConstellationCanvas handlers).

JavaScript numbers are modelled as rationals where the code is exact
arithmetic, and as reals where Math.sqrt appears.  Math.random draws are
modelled as explicit parameters u with 0 <= u < 1 (randInRange lo hi u
embeds lo + u * (hi - lo)).  Math.round x is modelled as floor (x + 1/2),
which is the ECMAScript rounding rule (round half toward positive
infinity).
-/

/-- Spectral classes O,B,A,F,G,K,M (the SpectralClass union type). -/
inductive SpectralClass where
  | O | B | A | F | G | K | M
  deriving DecidableEq, Repr

/-- One entry of SPECTRAL_CONFIG: temperature range, radius range in Sun
radii, display color and display label. -/
structure SpectralConfig where
  tempLo : ℚ
  tempHi : ℚ
  radLo : ℚ
  radHi : ℚ
  color : String
  label : String
  deriving DecidableEq, Repr

/-- SPECTRAL_CONFIG from src/unnamed/part_000 (the galaxy scene's table;
identical temperature and radius ranges and labels appear in
src/components/GalaxyCanvas.tsx). -/
def spectralConfig : SpectralClass → SpectralConfig
  | .O => ⟨30000, 50000, 6, 10, "#7dd7ff", "O-type blue star"⟩
  | .B => ⟨10000, 30000, 2, 6, "#8fb9ff", "B-type blue white star"⟩
  | .A => ⟨7500, 10000, 1.4, 2.0, "#e0e6ff", "A-type white star"⟩
  | .F => ⟨6000, 7500, 1.15, 1.4, "#ffe9c2", "F-type yellow white star"⟩
  | .G => ⟨5200, 6000, 0.9, 1.15, "#ffd27a", "G-type yellow star"⟩
  | .K => ⟨3700, 5200, 0.7, 0.9, "#ff9c4a", "K-type orange star"⟩
  | .M => ⟨2400, 3700, 0.1, 0.7, "#ff6b3b", "M-type red dwarf"⟩

/-- ECMAScript Math.round: round half toward positive infinity. -/
def jsRound (q : ℚ) : ℤ := ⌊q + 1 / 2⌋

/-- randInRange(min, max) = min + Math.random() * (max - min), with the
Math.random draw u made explicit. -/
def randInRange (lo hi u : ℚ) : ℚ := lo + u * (hi - lo)

/-- JavaScript String.prototype.trim: strip leading and trailing
whitespace (modelled on the string's character list so that concrete
instances compute). -/
def jsTrim (s : String) : String :=
  ⟨((s.data.dropWhile Char.isWhitespace).reverse.dropWhile Char.isWhitespace).reverse⟩

/-- JavaScript String.prototype.toLowerCase on the character list. -/
def jsToLower (s : String) : String :=
  ⟨s.data.map Char.toLower⟩

/-- JavaScript s[0] on a non-empty string: its first character. -/
def jsFirstChar (s : String) : Char :=
  s.data.headD ' '

/-- The magnitude fallback ladder inside inferSpectralClass
(src/unnamed/part_000 lines 118-124). -/
def magnitudeLadder (m : ℚ) : SpectralClass :=
  if m ≤ 0 then .B
  else if m ≤ 1.5 then .A
  else if m ≤ 3 then .F
  else if m ≤ 4.5 then .G
  else if m ≤ 6 then .K
  else .M

/-- inferSpectralClass (src/unnamed/part_000 lines 109-125, identical in
src/components/StarField.tsx and as inferSpectralClassFromCatalog in
src/components/GalaxyCanvas.tsx): a null spect is replaced by "", the
string is trimmed, and when non-empty its uppercased first character is
checked against the seven class letters; anything else falls back to the
magnitude ladder. -/
def inferSpectralClass (spect : Option String) (mag : ℚ) : SpectralClass :=
  let raw := jsTrim (spect.getD "")
  if raw.length > 0 then
    let c := (jsFirstChar raw).toUpper
    if c = 'O' then .O
    else if c = 'B' then .B
    else if c = 'A' then .A
    else if c = 'F' then .F
    else if c = 'G' then .G
    else if c = 'K' then .K
    else if c = 'M' then .M
    else magnitudeLadder mag
  else magnitudeLadder mag

/-- Reference mapping from a recognized class letter to its class, used by
the spec-worded reference definition below. -/
def classOfLetter (c : Char) : Option SpectralClass :=
  if c = 'O' then some .O
  else if c = 'B' then some .B
  else if c = 'A' then some .A
  else if c = 'F' then some .F
  else if c = 'G' then some .G
  else if c = 'K' then some .K
  else if c = 'M' then some .M
  else none

/-- The spec's magnitude ladder as an ordered table of inclusive upper
bounds, evaluated in increasing order, first match wins, default M. -/
def referenceLadderTable : List (ℚ × SpectralClass) :=
  [(0, .B), (1.5, .A), (3, .F), (4.5, .G), (6, .K)]

/-- Reference definition of spectral-class inference, written from the
spec's words: if the trimmed spectral-type string is non-empty and its
uppercased first character is one of O,B,A,F,G,K,M, that character is the
class regardless of magnitude; otherwise the first matching inclusive
upper bound of the magnitude ladder gives the class, default M. -/
def referenceSpectralClass (spect : Option String) (mag : ℚ) : SpectralClass :=
  let raw := jsTrim (spect.getD "")
  match (if raw = "" then none else classOfLetter (jsFirstChar raw).toUpper) with
  | some c => c
  | none =>
      match referenceLadderTable.find? (fun p => decide (mag ≤ p.1)) with
      | some p => p.2
      | none => .M

/-- A raw catalog record as it appears in stars.json (produced by
scripts/build-stars.mjs): optional proper name, apparent magnitude,
optional spectral-type string, raw cartesian position. -/
structure CatalogStar where
  name : Option String
  mag : ℚ
  spect : Option String
  x : ℚ
  y : ℚ
  z : ℚ
  deriving DecidableEq, Repr

/-- The letter of a spectral class, used by the click handler's type
string interpolation. -/
def classLetter : SpectralClass → String
  | .O => "O"
  | .B => "B"
  | .A => "A"
  | .F => "F"
  | .G => "G"
  | .K => "K"
  | .M => "M"

/-- toFixed(2) on a (positive) rational: round to two decimals and render
with exactly two fraction digits. -/
def fmt2 (q : ℚ) : String :=
  let n : ℤ := jsRound (q * 100)
  let ip : ℤ := n / 100
  let fp : ℤ := n % 100
  toString ip ++ "." ++ (if fp < 10 then "0" ++ toString fp else toString fp)

/-- The attribute fields of StarSelectionInfo shown in the info panel
(name, status, type, temperature, size).  The remaining position field is
the scene-specific component, modelled separately by remapPosition and
searchFocusPos. -/
structure StarPanelInfo where
  name : String
  status : String
  type : String
  temperature : ℤ
  size : String
  deriving DecidableEq, Repr

/-- The display name computed at load time in StarField
(src/unnamed/part_000 lines 171-175): the catalog name when it is truthy
and has a non-empty trim, else Unnamed #index. -/
def clickDisplayName (s : CatalogStar) (index : ℕ) : String :=
  match s.name with
  | some n => if n ≠ "" ∧ 0 < (jsTrim n).length then n else "Unnamed #" ++ toString index
  | none => "Unnamed #" ++ toString index

/-- The StarSelectionInfo panel fields produced by clicking a star in the
galaxy scene (src/unnamed/part_000: StarField projection lines 145-190
plus Star.handleClick lines 279-292).  uT and uR are the load-time
Math.random draws for temperature and radius. -/
def clickPanelInfo (s : CatalogStar) (index : ℕ) (uT uR : ℚ) : StarPanelInfo :=
  let cls := inferSpectralClass s.spect s.mag
  let cfg := spectralConfig cls
  let temperature := jsRound (randInRange cfg.tempLo cfg.tempHi uT)
  let radiusSun := randInRange cfg.radLo cfg.radHi uR
  { name := clickDisplayName s index
    status := "unclaimed"
    type := classLetter cls ++ "-type star"
    temperature := temperature
    size := fmt2 radiusSun ++ " x Sun radius" }

/-- The StarSelectionInfo panel fields produced by a successful search in
GalaxyCanvas.performSearch (src/components/GalaxyCanvas.tsx lines
158-190): the class is re-inferred, temperature and radius are freshly
drawn (draws uT and uR), and the type is the config's full label. -/
def searchPanelInfo (s : CatalogStar) (uT uR : ℚ) : StarPanelInfo :=
  let cls := inferSpectralClass s.spect s.mag
  let cfg := spectralConfig cls
  { name := match s.name with
            | some n => if n ≠ "" then n else "Unnamed star"
            | none => "Unnamed star"
    status := "unclaimed"
    type := cfg.label
    temperature := jsRound (randInRange cfg.tempLo cfg.tempHi uT)
    size := fmt2 (randInRange cfg.radLo cfg.radHi uR) ++ " x Sun radius" }

/-- The case-insensitive name match used by performSearch
(src/components/GalaxyCanvas.tsx lines 147-151): the record's name must
be truthy and its lowercase form equal to the lowercase query. -/
def matchesName (c : CatalogStar) (query : String) : Bool :=
  match c.name with
  | some n => n != "" && jsToLower n == jsToLower query
  | none => false

/-- A 3D scene vector, over the reals because the remapper and the search
focus path use Math.sqrt through the Euclidean norm. -/
structure Vec3 where
  x : ℝ
  y : ℝ
  z : ℝ

/-- Componentwise scalar multiple (three.js multiplyScalar). -/
noncomputable def Vec3.smul (k : ℝ) (v : Vec3) : Vec3 :=
  ⟨k * v.x, k * v.y, k * v.z⟩

/-- Euclidean length (three.js Vector3.length, Math.sqrt based). -/
noncomputable def Vec3.norm (v : Vec3) : ℝ :=
  Real.sqrt (v.x ^ 2 + v.y ^ 2 + v.z ^ 2)

/-- three.js Vector3.normalize: divide by the length. -/
noncomputable def Vec3.normalize (v : Vec3) : Vec3 :=
  Vec3.smul (1 / v.norm) v

/-- remapPosition (src/unnamed/part_000 lines 128-139): the original norm,
with 1e-6 substituted when it is zero (the JavaScript || fallback), and
the raw vector scaled by targetR / rOrig.  targetR is the Math.random
draw from [VIS_MIN, VIS_MAX) = [20, 85), made explicit. -/
noncomputable def remapPosition (v : Vec3) (targetR : ℝ) : Vec3 :=
  let s := Real.sqrt (v.x ^ 2 + v.y ^ 2 + v.z ^ 2)
  let rOrig := if s = 0 then 1 / 1000000 else s
  Vec3.smul (targetR / rOrig) v

/-- The synthetic focus position built by performSearch
(src/components/GalaxyCanvas.tsx lines 170-181): the raw catalog
direction, replaced by (0,0,1) when its length is zero, normalized and
scaled by focusDistance = 50. -/
noncomputable def searchFocusPos (v : Vec3) : Vec3 :=
  let dir := if v.norm = 0 then Vec3.mk 0 0 1 else v
  Vec3.smul 50 (Vec3.normalize dir)

/-- The galaxy scene state touched by performSearch: the selected star's
panel fields and the camera driven by focusCameraOn
(src/components/GalaxyCanvas.tsx lines 91-106). -/
structure GState where
  selectedStar : Option StarPanelInfo
  cameraTarget : Vec3
  cameraPos : Vec3

/-- focusCameraOn (src/components/GalaxyCanvas.tsx lines 91-106): orbit
target exactly at the star, camera at the star plus a (0,0,distance)
offset. -/
noncomputable def focusCameraOn (pos : Vec3) (distance : ℝ) (s : GState) : GState :=
  { s with cameraTarget := pos,
           cameraPos := ⟨pos.x, pos.y, pos.z + distance⟩ }

/-- performSearch (src/components/GalaxyCanvas.tsx lines 141-198) as a
state transformer.  The returned Bool records whether console.warn was
called.  A blank query returns early; a miss warns and changes nothing; a
hit re-derives the panel fields (draws uT, uR), builds the synthetic
focus position and moves the selection and camera. -/
noncomputable def performSearchStep (catalog : List CatalogStar) (query : String)
    (uT uR : ℚ) (s : GState) : GState × Bool :=
  if jsTrim query = "" then (s, false)
  else
    match catalog.find? (fun c => matchesName c query) with
    | none => (s, true)
    | some star =>
        let info := searchPanelInfo star uT uR
        let pos := searchFocusPos ⟨(star.x : ℝ), (star.y : ℝ), (star.z : ℝ)⟩
        (focusCameraOn pos 30 { s with selectedStar := some info }, false)

/-- The initial galaxy camera (src/components/GalaxyCanvas.tsx line 279:
camera position [0,0,120], orbit target at the origin), with nothing
selected. -/
noncomputable def initialGState : GState :=
  { selectedStar := none, cameraTarget := ⟨0, 0, 0⟩, cameraPos := ⟨0, 0, 120⟩ }

/-- StarRarity from the constellation scene. -/
inductive StarRarity where
  | common | uncommon
  deriving DecidableEq, Repr

/-- RarityVisualConfig (src/components/GalaxyCanvas.tsx, ConstellationCanvas
part): size range, color, flicker strength, type name, size label and
temperature range per rarity. -/
structure RarityVisualConfig where
  sizeLo : ℚ
  sizeHi : ℚ
  color : String
  flickerStrength : ℚ
  typeName : String
  sizeLabel : String
  tempLo : ℚ
  tempHi : ℚ
  deriving DecidableEq, Repr

/-- RARITY_VISUAL_CONFIG. -/
def rarityVisualConfig : StarRarity → RarityVisualConfig
  | .common => ⟨0.05, 0.08, "#ffb26b", 0.07, "K/M-type dwarf", "Small", 3000, 5000⟩
  | .uncommon => ⟨0.06, 0.095, "#ffd86b", 0.1, "G-type star", "Medium", 5000, 6000⟩

/-- An InventoryStar of the constellation scene. -/
structure InventoryStar where
  id : String
  rarity : StarRarity
  placed : Bool
  position : Option (ℚ × ℚ × ℚ)
  name : String
  status : String
  type : String
  temperature : ℤ
  sizeLabel : String
  deriving DecidableEq, Repr

/-- The rarity's identifier prefix used to build inventory ids. -/
def rarityId : StarRarity → String
  | .common => "common"
  | .uncommon => "uncommon"

/-- makeStar inside the ConstellationCanvas inventory initializer: id
rarity-index, unplaced, null position, name "???", status "unclaimed",
type and size label from the config, temperature drawn once (draw u). -/
def makeStar (rarity : StarRarity) (index : ℕ) (u : ℚ) : InventoryStar :=
  let cfg := rarityVisualConfig rarity
  { id := rarityId rarity ++ "-" ++ toString index
    rarity := rarity
    placed := false
    position := none
    name := "???"
    status := "unclaimed"
    type := cfg.typeName
    temperature := jsRound (randInRange cfg.tempLo cfg.tempHi u)
    sizeLabel := cfg.sizeLabel }

/-- The initial inventory: 5 common then 2 uncommon entries, with the
temperature draws indexed by creation order. -/
def initialInventory (draws : ℕ → ℚ) : List InventoryStar :=
  ((List.range 5).map fun i => makeStar .common i (draws i)) ++
    ((List.range 2).map fun i => makeStar .uncommon i (draws (5 + i)))

/-- The React state of ConstellationCanvas: inventory, editMode,
selectedInventoryId (the armed id) and selectedStar (the displayed
selection). -/
structure CState where
  inventory : List InventoryStar
  editMode : Bool
  selectedInventoryId : Option String
  selectedStar : Option InventoryStar
  deriving DecidableEq, Repr

/-- The scene-start state: fresh inventory, not in edit mode, nothing
armed, nothing selected. -/
def initialCState (draws : ℕ → ℚ) : CState :=
  { inventory := initialInventory draws
    editMode := false
    selectedInventoryId := none
    selectedStar := none }

/-- snapToGrid (src/components/GalaxyCanvas.tsx lines 565-573): each axis
independently Math.rounded after division by the step, then rescaled. -/
def snapToGrid (pos : ℚ × ℚ × ℚ) (step : ℚ) : ℚ × ℚ × ℚ :=
  ((jsRound (pos.1 / step) : ℚ) * step,
   (jsRound (pos.2.1 / step) : ℚ) * step,
   (jsRound (pos.2.2 / step) : ℚ) * step)

/-- handleToggleEdit (lines 698-703): flips editMode; since the captured
editMode is the pre-toggle value, the armed id is cleared exactly when
leaving edit mode. -/
def handleToggleEdit (s : CState) : CState :=
  { s with editMode := !s.editMode
           selectedInventoryId := if s.editMode then none else s.selectedInventoryId }

/-- Array.find by id over the inventory. -/
def findStar (inv : List InventoryStar) (id : String) : Option InventoryStar :=
  inv.find? (fun e => e.id == id)

/-- The arm-for-placement operation.  The editMode guard is in
handleSelectInventoryStar (lines 705-708) and on the button's disabled
attribute; the not-currently-placed guard comes from the inventory panel
rendering, which gives a placed entry a Return button instead of the Use
button wired to this handler (lines 932-968).  In edit mode, for an
unplaced entry, the handler toggles the armed id. -/
def armForPlacement (id : String) (s : CState) : CState :=
  if !s.editMode then s
  else
    match findStar s.inventory id with
    | none => s
    | some e =>
        if e.placed then s
        else { s with selectedInventoryId :=
                 if s.selectedInventoryId = some id then none else some id }

/-- handleReturnToInventory (lines 710-729): clears the placement fields
of the entry, and clears the armed id and the displayed selection when
they referred to it. -/
def handleReturnToInventory (id : String) (s : CState) : CState :=
  { inventory := s.inventory.map fun e =>
      if e.id == id then { e with placed := false, position := none } else e
    editMode := s.editMode
    selectedInventoryId :=
      if s.selectedInventoryId = some id then none else s.selectedInventoryId
    selectedStar :=
      match s.selectedStar with
      | some st => if st.id == id then none else some st
      | none => none }

/-- handlePlaneClick (lines 731-752): a no-op outside edit mode or with no
armed id; otherwise the click position is grid-snapped with step 1, the
armed entry becomes placed at the snapped position, and the updated entry
becomes the displayed selection. -/
def handlePlaneClick (pos : ℚ × ℚ × ℚ) (s : CState) : CState :=
  if !s.editMode then s
  else
    match s.selectedInventoryId with
    | none => s
    | some sid =>
        let snapped := snapToGrid pos 1
        match findStar s.inventory sid with
        | none => s
        | some baseStar =>
            let updatedStar := { baseStar with placed := true, position := some snapped }
            { s with inventory := s.inventory.map fun e =>
                       if e.id == sid then updatedStar else e
                     selectedStar := some updatedStar }

/-- handlePlacedStarClick (lines 754-763): ignores unknown ids and entries
with a null position; otherwise the entry becomes the displayed selection
and, in edit mode, also the armed id. -/
def handlePlacedStarClick (id : String) (s : CState) : CState :=
  match findStar s.inventory id with
  | none => s
  | some star =>
      match star.position with
      | none => s
      | some _ =>
          { s with selectedStar := some star
                   selectedInventoryId :=
                     if s.editMode then some id else s.selectedInventoryId }

/-- clearSelection (lines 765-768), wired to clicks on the scene
background: clears the displayed selection and the armed id. -/
def clearSelection (s : CState) : CState :=
  { s with selectedStar := none, selectedInventoryId := none }

/-- States of the constellation system reachable from the initial
inventory by the user-facing operations. -/
inductive CReachable : CState → Prop where
  | init (draws : ℕ → ℚ) : CReachable (initialCState draws)
  | toggleEdit {s} : CReachable s → CReachable (handleToggleEdit s)
  | arm {s} (id : String) : CReachable s → CReachable (armForPlacement id s)
  | place {s} (pos : ℚ × ℚ × ℚ) : CReachable s → CReachable (handlePlaneClick pos s)
  | ret {s} (id : String) : CReachable s → CReachable (handleReturnToInventory id s)
  | clickPlaced {s} (id : String) : CReachable s → CReachable (handlePlacedStarClick id s)
  | background {s} : CReachable s → CReachable (clearSelection s)

/-- The placement invariant: placed is true exactly when the position is
non-null, and every stored position has all three coordinates on the
integer grid (rational denominator 1). -/
def gridInvariant (s : CState) : Prop :=
  ∀ e ∈ s.inventory,
    (e.placed = true ↔ e.position ≠ none) ∧
      ∀ p, e.position = some p → p.1.den = 1 ∧ p.2.1.den = 1 ∧ p.2.2.den = 1

/-- JavaScript truthiness of the nullable selectedName string: null and
the empty string are falsy. -/
def jsTruthyName : Option String → Bool
  | none => false
  | some s => s != ""

/-- The per-frame target of the selection mix (src/unnamed/part_000 lines
250-259): 1 when there is no selection or this star is the selected one,
0 otherwise. -/
def targetMix (sel : Option String) (name : String) : ℚ :=
  let hasSelection := jsTruthyName sel
  let isSelected := hasSelection && (some name == sel)
  if !hasSelection || isSelected then 1 else 0

/-- One frame of the mix easing (line 260-261):
mix += (target - mix) * 0.12. -/
def stepMix (target mix : ℚ) : ℚ := mix + (target - mix) * 0.12

/-- Demo constellation state for concrete witnesses: initial inventory
with zero draws, edit mode on, the first common star armed. -/
def demoArmedState : CState :=
  { inventory := initialInventory fun _ => 0
    editMode := true
    selectedInventoryId := some "common-0"
    selectedStar := none }

/-- Demo catalog record with a recognized spectral letter. -/
def vegaCat : CatalogStar :=
  { name := some "Vega", mag := 0.03, spect := some "A0V", x := 1, y := 1, z := 1 }

/-- Demo catalog record list for search theorems. -/
def demoCatalog : List CatalogStar := [vegaCat]

/-- A non-empty string has positive length. -/
theorem string_length_pos_of_ne (s : String) (h : s ≠ "") : 0 < s.length := by
  cases s with
  | mk data =>
    cases data with
    | nil => exact absurd rfl h
    | cons a l => simp [String.length]

/-- The code's magnitude ladder agrees with the spec's ordered table of
inclusive upper bounds, first match wins, default M. -/
theorem magnitudeLadder_eq_reference (m : ℚ) :
    (match referenceLadderTable.find? (fun p => decide (m ≤ p.1)) with
     | some p => p.2
     | none => SpectralClass.M) = magnitudeLadder m := by
  by_cases h0 : m ≤ 0 <;> by_cases h1 : m ≤ 1.5 <;> by_cases h2 : m ≤ 3 <;>
    by_cases h3 : m ≤ 4.5 <;> by_cases h4 : m ≤ 6 <;>
      simp [magnitudeLadder, referenceLadderTable, List.find?, h0, h1, h2, h3, h4]

/-- C2: for every catalog record, the inferred spectral class equals the
reference definition: a non-empty trimmed spectral string whose uppercased
first character is a recognized class letter gives that class regardless
of magnitude, and otherwise the inclusive-upper-bound magnitude ladder
decides, with magnitude exactly 3/2 giving A and 150001/100000 giving
F. -/
theorem inferSpectralClass_correct :
    (∀ spect mag, inferSpectralClass spect mag = referenceSpectralClass spect mag) ∧
    (∀ spect mag mag2 c,
      classOfLetter (jsFirstChar (jsTrim (spect.getD ""))).toUpper = some c →
      jsTrim (spect.getD "") ≠ "" →
      inferSpectralClass spect mag = c ∧ inferSpectralClass spect mag2 = c) ∧
    inferSpectralClass none (3 / 2) = SpectralClass.A ∧
    inferSpectralClass none (150001 / 100000) = SpectralClass.F := by
  have href : ∀ spect mag, inferSpectralClass spect mag = referenceSpectralClass spect mag := by
    intro spect mag
    simp only [inferSpectralClass, referenceSpectralClass]
    by_cases hr : jsTrim (spect.getD "") = ""
    · have hlen : (jsTrim (spect.getD "")).length = 0 := by rw [hr]; rfl
      simp [hr, hlen, ← magnitudeLadder_eq_reference mag]
    · have hlen : 0 < (jsTrim (spect.getD "")).length := string_length_pos_of_ne _ hr
      by_cases hO : (jsFirstChar (jsTrim (spect.getD ""))).toUpper = 'O' <;>
        by_cases hB : (jsFirstChar (jsTrim (spect.getD ""))).toUpper = 'B' <;>
        by_cases hA : (jsFirstChar (jsTrim (spect.getD ""))).toUpper = 'A' <;>
        by_cases hF : (jsFirstChar (jsTrim (spect.getD ""))).toUpper = 'F' <;>
        by_cases hG : (jsFirstChar (jsTrim (spect.getD ""))).toUpper = 'G' <;>
        by_cases hK : (jsFirstChar (jsTrim (spect.getD ""))).toUpper = 'K' <;>
        by_cases hM : (jsFirstChar (jsTrim (spect.getD ""))).toUpper = 'M' <;>
        simp_all [classOfLetter, ← magnitudeLadder_eq_reference mag]
  refine ⟨href, ?_, by decide, by decide⟩
  intro spect mag mag2 c hc hne
  constructor <;> rw [href] <;> simp [referenceSpectralClass, hne, hc]

/-- Witness for inferSpectralClass_correct: the letter branch really fires
on a concrete record (spect "G2V") for two different magnitudes. -/
theorem inferSpectralClass_correct_witness :
    classOfLetter (jsFirstChar (jsTrim ((some "G2V" : Option String).getD ""))).toUpper =
        some SpectralClass.G ∧
      jsTrim ((some "G2V" : Option String).getD "") ≠ "" ∧
      inferSpectralClass (some "G2V") 0 = SpectralClass.G ∧
      inferSpectralClass (some "G2V") 100 = SpectralClass.G :=
  ⟨by decide, by decide,
    (inferSpectralClass_correct.2.1 (some "G2V") 0 100 SpectralClass.G
      (by decide) (by decide)).1,
    (inferSpectralClass_correct.2.1 (some "G2V") 0 100 SpectralClass.G
      (by decide) (by decide)).2⟩



/-- C5: handlePlaneClick in edit mode with an armed id that exists in the
inventory snaps the click position to the integer grid axis by axis with
step 1, marks that entry placed at the snapped position, and makes the
updated entry the displayed selection; on the concrete input
(1.4, 2.6, -0.2) the snapped position is (1, 3, 0). -/
theorem handlePlaneClick_snaps (s : CState) (pos : ℚ × ℚ × ℚ) (sid : String)
    (baseStar : InventoryStar) (hedit : s.editMode = true)
    (hsel : s.selectedInventoryId = some sid)
    (hfind : findStar s.inventory sid = some baseStar) :
    (handlePlaneClick pos s).selectedStar =
        some { baseStar with placed := true, position := some (snapToGrid pos 1) } ∧
      (handlePlaneClick pos s).inventory =
        s.inventory.map (fun e =>
          if e.id == sid then
            { baseStar with placed := true, position := some (snapToGrid pos 1) }
          else e) ∧
      snapToGrid (1.4, 2.6, -0.2) 1 = (1, 3, 0) := by
  refine ⟨?_, ?_, by decide⟩ <;>
    simp [handlePlaneClick, hedit, hsel, hfind]

/-- Witness for handlePlaneClick_snaps at the demo state: edit mode on,
common-0 armed, clicking at (1.4, 2.6, -0.2). -/
theorem handlePlaneClick_snaps_witness :
    demoArmedState.editMode = true ∧
      demoArmedState.selectedInventoryId = some "common-0" ∧
      findStar demoArmedState.inventory "common-0" =
        some (makeStar StarRarity.common 0 0) ∧
      (handlePlaneClick (1.4, 2.6, -0.2) demoArmedState).selectedStar =
        some { makeStar StarRarity.common 0 0 with
                 placed := true
                 position := some (snapToGrid (1.4, 2.6, -0.2) 1) } :=
  ⟨rfl, rfl, by decide,
    (handlePlaneClick_snaps demoArmedState (1.4, 2.6, -0.2) "common-0"
      (makeStar StarRarity.common 0 0) rfl rfl (by decide)).1⟩
/-- C6: arming is a no-op outside edit mode, and has an effect only for an
existing inventory entry that is not currently placed; in edit mode on an
unplaced entry it toggles the armed id, which is a single optional field,
so at most one id is armed at any time. -/
theorem armForPlacement_spec (s : CState) (id : String) :
    (s.editMode = false → armForPlacement id s = s) ∧
      (findStar s.inventory id = none → armForPlacement id s = s) ∧
      (∀ e, findStar s.inventory id = some e → e.placed = true →
        armForPlacement id s = s) ∧
      (∀ e, s.editMode = true → findStar s.inventory id = some e →
        e.placed = false →
        armForPlacement id s =
          { s with selectedInventoryId :=
              if s.selectedInventoryId = some id then none else some id }) := by
  refine ⟨fun h => ?_, fun h => ?_, fun e hf hp => ?_, fun e he hf hp => ?_⟩ <;>
    simp [armForPlacement, *]

/-- Witness for armForPlacement_spec: at the demo state (edit mode on,
common-0 already armed and unplaced) arming common-0 again disarms it. -/
theorem armForPlacement_spec_witness :
    demoArmedState.editMode = true ∧
      findStar demoArmedState.inventory "common-0" =
        some (makeStar StarRarity.common 0 0) ∧
      (makeStar StarRarity.common 0 0).placed = false ∧
      armForPlacement "common-0" demoArmedState =
        { demoArmedState with selectedInventoryId :=
            (if demoArmedState.selectedInventoryId = some "common-0" then none
             else some "common-0") } :=
  ⟨rfl, by decide, rfl,
    (armForPlacement_spec demoArmedState "common-0").2.2.2
      (makeStar StarRarity.common 0 0) rfl (by decide) rfl⟩

/-- C7: exiting edit mode clears the armed id, a background click clears
both the displayed selection and the armed id, and neither operation
touches the inventory list, so no placed flag or stored position
changes. -/
theorem toggleEdit_clearSelection_frame (s : CState) :
    (s.editMode = true → (handleToggleEdit s).selectedInventoryId = none) ∧
      (handleToggleEdit s).inventory = s.inventory ∧
      (clearSelection s).selectedStar = none ∧
      (clearSelection s).selectedInventoryId = none ∧
      (clearSelection s).inventory = s.inventory := by
  refine ⟨fun h => ?_, rfl, rfl, rfl, rfl⟩
  simp [handleToggleEdit, h]

/-- Witness for toggleEdit_clearSelection_frame at the demo state, whose
edit mode is on. -/
theorem toggleEdit_clearSelection_frame_witness :
    demoArmedState.editMode = true ∧
      (handleToggleEdit demoArmedState).selectedInventoryId = none ∧
      (handleToggleEdit demoArmedState).inventory = demoArmedState.inventory ∧
      (clearSelection demoArmedState).selectedStar = none :=
  ⟨rfl, (toggleEdit_clearSelection_frame demoArmedState).1 rfl,
    (toggleEdit_clearSelection_frame demoArmedState).2.1,
    (toggleEdit_clearSelection_frame demoArmedState).2.2.1⟩
/-- C8: the per-frame selection-mix target is 1 exactly when nothing is
selected or this star is the selected one (selected names are never the
empty string), the target is always 0 or 1, iterating the frame update
mix += (target - mix) * 0.12 keeps the mix inside [0,1] whenever it
starts there, and the signed distance to the target decays exactly by the
factor 22/25 per frame, so the mix converges to its target. -/
theorem focusMix_spec (sel : Option String) (name : String) (mix : ℚ)
    (hsel : sel ≠ some "") (h0 : 0 ≤ mix) (h1 : mix ≤ 1) :
    (targetMix sel name = 1 ↔ sel = none ∨ sel = some name) ∧
      (targetMix sel name = 0 ∨ targetMix sel name = 1) ∧
      (∀ n : ℕ, 0 ≤ (stepMix (targetMix sel name))^[n] mix ∧
        (stepMix (targetMix sel name))^[n] mix ≤ 1) ∧
      (∀ n : ℕ, targetMix sel name - (stepMix (targetMix sel name))^[n] mix =
        (22 / 25 : ℚ) ^ n * (targetMix sel name - mix)) := by
  have ht : targetMix sel name = 0 ∨ targetMix sel name = 1 := by
    simp only [targetMix]
    split <;> simp
  have hdecay : ∀ m : ℚ, targetMix sel name - stepMix (targetMix sel name) m =
      (22 / 25) * (targetMix sel name - m) := by
    intro m
    unfold stepMix
    ring
  have hstep : ∀ m : ℚ, 0 ≤ m → m ≤ 1 →
      0 ≤ stepMix (targetMix sel name) m ∧ stepMix (targetMix sel name) m ≤ 1 := by
    intro m hm0 hm1
    rcases ht with h | h <;> rw [h] <;> unfold stepMix <;> norm_num <;>
      constructor <;> nlinarith
  have hbounds : ∀ n : ℕ, 0 ≤ (stepMix (targetMix sel name))^[n] mix ∧
      (stepMix (targetMix sel name))^[n] mix ≤ 1 := by
    intro n
    induction n with
    | zero => simpa using ⟨h0, h1⟩
    | succ n ih =>
        rw [Function.iterate_succ_apply']
        exact hstep _ ih.1 ih.2
  have hgeom : ∀ n : ℕ, targetMix sel name - (stepMix (targetMix sel name))^[n] mix =
      (22 / 25 : ℚ) ^ n * (targetMix sel name - mix) := by
    intro n
    induction n with
    | zero => simp
    | succ n ih => rw [Function.iterate_succ_apply', hdecay, ih, pow_succ]; ring
  have hiff : targetMix sel name = 1 ↔ sel = none ∨ sel = some name := by
    cases sel with
    | none => simp [targetMix, jsTruthyName]
    | some s =>
        have hs : s ≠ "" := fun h => hsel (by rw [h])
        have hbs : (s != "") = true := by simpa using hs
        simp only [targetMix, jsTruthyName, hbs]
        by_cases hn : name = s
        · simp [hn]
        · have hn2 : s ≠ name := fun h => hn h.symm
          simp [hn, hn2]
  exact ⟨hiff, ht, hbounds, hgeom⟩

/-- Witness for focusMix_spec: with Vega selected, the star named Altair
has target 0 and its mix decays geometrically from 1. -/
theorem focusMix_spec_witness :
    (some "Vega" : Option String) ≠ some "" ∧ (0 : ℚ) ≤ 1 ∧ (1 : ℚ) ≤ 1 ∧
      (targetMix (some "Vega") "Altair" = 1 ↔
        (some "Vega" : Option String) = none ∨
          (some "Vega" : Option String) = some "Altair") ∧
      (∀ n : ℕ,
        targetMix (some "Vega") "Altair" -
            (stepMix (targetMix (some "Vega") "Altair"))^[n] 1 =
          (22 / 25 : ℚ) ^ n * (targetMix (some "Vega") "Altair" - 1)) :=
  ⟨by decide, by norm_num, by norm_num,
    (focusMix_spec (some "Vega") "Altair" 1 (by decide) (by norm_num)
      (by norm_num)).1,
    (focusMix_spec (some "Vega") "Altair" 1 (by decide) (by norm_num)
      (by norm_num)).2.2.2⟩
/-- Counterexample for C9: the empty query is an unsuccessful search (no
catalog record matches it case-insensitively, since only truthy names
match), yet performSearch returns early without emitting the warning, so
an unsuccessful search does not always produce an observable warning. -/
theorem performSearch_blank_no_warn_cex :
    (∀ c ∈ demoCatalog, matchesName c "" = false) ∧
      performSearchStep demoCatalog "" 0 0 initialGState =
        (initialGState, false) := by
  constructor
  · decide
  · have h : jsTrim "" = "" := rfl
    simp [performSearchStep, h]

/-- C9 (amended): an unsuccessful name search leaves the whole galaxy
state (selection and camera focus) unchanged and returns normally, and it
emits the console warning exactly when the query is not blank; a blank
query returns early with no warning. -/
theorem performSearch_miss_spec (catalog : List CatalogStar) (query : String)
    (uT uR : ℚ) (s : GState)
    (hmiss : catalog.find? (fun c => matchesName c query) = none) :
    (performSearchStep catalog query uT uR s).1 = s ∧
      ((performSearchStep catalog query uT uR s).2 = true ↔ jsTrim query ≠ "") := by
  by_cases hq : jsTrim query = ""
  · simp [performSearchStep, hq]
  · simp [performSearchStep, hq, hmiss]

/-- Witness for performSearch_miss_spec: searching Altair in a catalog
holding only Vega misses, changes nothing, and warns. -/
theorem performSearch_miss_spec_witness :
    demoCatalog.find? (fun c => matchesName c "Altair") = none ∧
      (performSearchStep demoCatalog "Altair" 0 0 initialGState).1 =
        initialGState ∧
      ((performSearchStep demoCatalog "Altair" 0 0 initialGState).2 = true ↔
        jsTrim "Altair" ≠ "") :=
  ⟨by decide,
    (performSearch_miss_spec demoCatalog "Altair" 0 0 initialGState
      (by decide)).1,
    (performSearch_miss_spec demoCatalog "Altair" 0 0 initialGState
      (by decide)).2⟩

/-- Counterexample for C1: on the same catalog record (Vega, class A) and
even with identical random draws the search panel and the click panel
disagree: the search's type is the config label "A-type white star" while
the click's type is "A-type star", and with different draws the search
shows a freshly sampled temperature, so a successful search does not
reproduce the SelectionState a click would produce. -/
theorem search_differs_from_click_cex :
    (searchPanelInfo vegaCat 0 0).name = (clickPanelInfo vegaCat 0 0 0).name ∧
      (searchPanelInfo vegaCat 0 0).type ≠ (clickPanelInfo vegaCat 0 0 0).type ∧
      (searchPanelInfo vegaCat (1 / 2) 0).temperature ≠
        (clickPanelInfo vegaCat 0 0 0).temperature := by
  refine ⟨by decide, by decide, by decide⟩

/-- C1 (amended): the star field samples temperature and radius once at
load time, and clicking re-reads those stored attributes, but a
successful search re-infers the class and re-samples temperature and
radius.  For a record with a truthy name of non-empty trim, the search
panel agrees with the click panel on name and status always, on
temperature and size exactly when the search's draws equal the load-time
draws, and its type label always differs (config label versus letter-type
string). -/
theorem search_vs_click_panel (s : CatalogStar) (index : ℕ) (uT uR : ℚ)
    (n : String) (hname : s.name = some n) (htrim : 0 < (jsTrim n).length) :
    (searchPanelInfo s uT uR).name = (clickPanelInfo s index uT uR).name ∧
      (searchPanelInfo s uT uR).status = (clickPanelInfo s index uT uR).status ∧
      (searchPanelInfo s uT uR).temperature =
        (clickPanelInfo s index uT uR).temperature ∧
      (searchPanelInfo s uT uR).size = (clickPanelInfo s index uT uR).size ∧
      (searchPanelInfo s uT uR).type ≠ (clickPanelInfo s index uT uR).type := by
  have hne : n ≠ "" := by
    intro h
    rw [h] at htrim
    simp [jsTrim] at htrim
  refine ⟨?_, rfl, rfl, rfl, ?_⟩
  · simp [searchPanelInfo, clickPanelInfo, clickDisplayName, hname, hne, htrim]
  · simp only [searchPanelInfo, clickPanelInfo]
    cases hcl : inferSpectralClass s.spect s.mag <;> simp [hcl] <;> decide

/-- Witness for search_vs_click_panel on the Vega record with equal
draws: names agree, types still differ. -/
theorem search_vs_click_panel_witness :
    vegaCat.name = some "Vega" ∧ 0 < (jsTrim "Vega").length ∧
      (searchPanelInfo vegaCat 0 0).name = (clickPanelInfo vegaCat 3 0 0).name ∧
      (searchPanelInfo vegaCat 0 0).type ≠ (clickPanelInfo vegaCat 3 0 0).type :=
  ⟨rfl, by decide,
    (search_vs_click_panel vegaCat 3 0 0 "Vega" rfl (by decide)).1,
    (search_vs_click_panel vegaCat 3 0 0 "Vega" rfl (by decide)).2.2.2.2⟩
/-- Arming never touches the inventory list. -/
theorem armForPlacement_inventory (id : String) (s : CState) :
    (armForPlacement id s).inventory = s.inventory := by
  unfold armForPlacement
  split
  · rfl
  · split
    · rfl
    · split <;> rfl

/-- Clicking a placed star never touches the inventory list. -/
theorem handlePlacedStarClick_inventory (id : String) (s : CState) :
    (handlePlacedStarClick id s).inventory = s.inventory := by
  unfold handlePlacedStarClick
  split
  · rfl
  · split <;> rfl

/-- Snapping with step 1 lands every axis on the integer grid. -/
theorem snapToGrid_den (pos : ℚ × ℚ × ℚ) :
    (snapToGrid pos 1).1.den = 1 ∧ (snapToGrid pos 1).2.1.den = 1 ∧
      (snapToGrid pos 1).2.2.den = 1 := by
  simp [snapToGrid, mul_one, Rat.den_intCast]

/-- C10: in every state reachable from the initial inventory by
toggle-edit, arm, place, return-to-inventory, placed-star click and
background click, an entry is placed exactly when its position is
non-null, and every stored position lies on the step-1 integer grid. -/
theorem constellation_grid_invariant (s : CState) (h : CReachable s) :
    gridInvariant s := by
  induction h with
  | init draws =>
      intro e he
      simp only [initialCState, initialInventory, List.mem_append,
        List.mem_map, List.mem_range] at he
      rcases he with ⟨i, _, rfl⟩ | ⟨i, _, rfl⟩ <;> simp [makeStar]
  | toggleEdit _ ih =>
      intro e he
      exact ih e he
  | arm id _ ih =>
      intro e he
      rw [armForPlacement_inventory] at he
      exact ih e he
  | place pos _ ih =>
      intro e he
      unfold handlePlaneClick at he
      split at he
      · exact ih e he
      · split at he
        · exact ih e he
        · next sid hsid =>
            split at he
            · exact ih e he
            · next baseStar hbase =>
              simp only [List.mem_map] at he
              obtain ⟨e0, he0, rfl⟩ := he
              by_cases hid : (e0.id == sid) = true
              · simp only [hid, if_true]
                refine ⟨by simp, fun p hp => ?_⟩
                simp only [Option.some.injEq] at hp
                subst hp
                exact snapToGrid_den pos
              · simp only [hid, if_false]
                exact ih e0 he0
  | ret id _ ih =>
      intro e he
      unfold handleReturnToInventory at he
      simp only [List.mem_map] at he
      obtain ⟨e0, he0, rfl⟩ := he
      by_cases hid : (e0.id == id) = true
      · simp [hid]
      · simp only [hid, if_false]
        exact ih e0 he0
  | clickPlaced id _ ih =>
      intro e he
      rw [handlePlacedStarClick_inventory] at he
      exact ih e he
  | background _ ih =>
      intro e he
      exact ih e he

/-- Witness for constellation_grid_invariant: the invariant holds at a
concrete reachable state, the initial state with zero temperature
draws. -/
theorem constellation_grid_invariant_witness :
    gridInvariant (initialCState fun _ => 0) :=
  constellation_grid_invariant _ (CReachable.init fun _ => 0)
/-- The Euclidean norm scales by the absolute value of the factor. -/
theorem Vec3.norm_smul (k : ℝ) (v : Vec3) :
    (Vec3.smul k v).norm = |k| * v.norm := by
  unfold Vec3.norm Vec3.smul
  rw [show (k * v.x) ^ 2 + (k * v.y) ^ 2 + (k * v.z) ^ 2 =
      k ^ 2 * (v.x ^ 2 + v.y ^ 2 + v.z ^ 2) by ring,
    Real.sqrt_mul (sq_nonneg k), Real.sqrt_sq_eq_abs]

/-- Composition of scalar multiples. -/
theorem Vec3.smul_smul (a b : ℝ) (v : Vec3) :
    Vec3.smul a (Vec3.smul b v) = Vec3.smul (a * b) v := by
  simp [Vec3.smul, mul_assoc]

/-- C3: for a raw position of non-zero norm, the remapped position's norm
equals the drawn target radius, hence lies in the visible shell [20, 85]
for every value the uniform draw can take, and its normalized direction
equals the normalized raw position. -/
theorem remapPosition_correct (v : Vec3) (r : ℝ) (hv : v.norm ≠ 0)
    (h20 : 20 ≤ r) (h85 : r ≤ 85) :
    (remapPosition v r).norm = r ∧ 20 ≤ (remapPosition v r).norm ∧
      (remapPosition v r).norm ≤ 85 ∧
      (remapPosition v r).normalize = v.normalize := by
  have hv' : Real.sqrt (v.x ^ 2 + v.y ^ 2 + v.z ^ 2) ≠ 0 := hv
  have hpos : 0 < v.norm := lt_of_le_of_ne (Real.sqrt_nonneg _) (Ne.symm hv)
  have hrpos : 0 < r := lt_of_lt_of_le (by norm_num) h20
  have hr0 : r ≠ 0 := ne_of_gt hrpos
  have hremap : remapPosition v r = Vec3.smul (r / v.norm) v := by
    simp only [remapPosition, hv', if_false]
    rfl
  have hnorm : (remapPosition v r).norm = r := by
    rw [hremap, Vec3.norm_smul, abs_of_pos (div_pos hrpos hpos),
      div_mul_cancel₀ _ hv]
  refine ⟨hnorm, by rw [hnorm]; exact h20, by rw [hnorm]; exact h85, ?_⟩
  unfold Vec3.normalize
  rw [hnorm, hremap, Vec3.smul_smul]
  congr 1
  field_simp

/-- Witness for remapPosition_correct at v = (3,4,0) of norm 5 and target
radius 50. -/
theorem remapPosition_correct_witness :
    Vec3.norm ⟨3, 4, 0⟩ ≠ 0 ∧ (20 : ℝ) ≤ 50 ∧ (50 : ℝ) ≤ 85 ∧
      (remapPosition ⟨3, 4, 0⟩ 50).norm = 50 ∧
      (remapPosition ⟨3, 4, 0⟩ 50).normalize = Vec3.normalize ⟨3, 4, 0⟩ :=
  have hv : Vec3.norm ⟨3, 4, 0⟩ ≠ 0 :=
    ne_of_gt (Real.sqrt_pos.mpr (by norm_num))
  ⟨hv, by norm_num, by norm_num,
    (remapPosition_correct ⟨3, 4, 0⟩ 50 hv (by norm_num) (by norm_num)).1,
    (remapPosition_correct ⟨3, 4, 0⟩ 50 hv (by norm_num) (by norm_num)).2.2.2⟩

/-- Counterexample for C4: remapPosition maps the zero raw position to
the origin, not to (0, 0, r) with r in the visible shell; the epsilon in
the norm only prevents a division by zero, it does not substitute the
(0,0,1) direction. -/
theorem remapPosition_zero_cex :
    remapPosition ⟨0, 0, 0⟩ 50 = (⟨0, 0, 0⟩ : Vec3) ∧
      ¬∃ r : ℝ, 20 ≤ r ∧ r ≤ 85 ∧ remapPosition ⟨0, 0, 0⟩ 50 = ⟨0, 0, r⟩ := by
  have h0 : remapPosition ⟨0, 0, 0⟩ 50 = (⟨0, 0, 0⟩ : Vec3) := by
    simp [remapPosition, Vec3.smul]
  refine ⟨h0, ?_⟩
  rintro ⟨r, h20, _, hr⟩
  rw [h0] at hr
  have hz : (0 : ℝ) = r := congrArg Vec3.z hr
  linarith

/-- C4 (amended): for the zero raw position the remapper returns the
origin for every drawn target radius; the (0,0,1) degenerate-direction
fallback lives in the search's synthetic focus position, which maps the
zero raw position to (0, 0, 50). -/
theorem remapPosition_zero_spec (r : ℝ) :
    remapPosition ⟨0, 0, 0⟩ r = (⟨0, 0, 0⟩ : Vec3) ∧
      searchFocusPos ⟨0, 0, 0⟩ = (⟨0, 0, 50⟩ : Vec3) := by
  constructor
  · simp [remapPosition, Vec3.smul]
  · have hz : (Vec3.mk 0 0 0).norm = 0 := by
      simp [Vec3.norm]
    have h1 : (Vec3.mk 0 0 1).norm = 1 := by
      norm_num [Vec3.norm]
    simp [searchFocusPos, hz, Vec3.normalize, h1, Vec3.smul]
